import Mathlib

/-!
Verification of the CDT-plusplus move engine: the Metropolis-Hastings
acceptance strategy (`Metropolis.hpp`), the move-execution queue
(`Move_command.hpp`), and the per-move-type statistics bookkeeping.

The C++ headers are shallowly embedded: machine integers become `Nat`/`Int`,
the exact multiprecision scalars (`Gmpzf`) become `Rat`, MPFR non-finite
results (NaN from 0/0) are modelled with `Option`, thrown C++ exceptions
become `Except`, and fallible ergodic moves return `Except`/`Option` values.
The action evaluator `S3_bulk_action` and the MPFR exponential are external
collaborators and are taken as parameters.
-/

namespace CDT

/-- The closed five-member set of ergodic (Pachner) move types in 3D,
from `move_tracker::move_type` as used by `Metropolis.hpp`. -/
inductive move_type where
  | TWO_THREE
  | THREE_TWO
  | TWO_SIX
  | SIX_TWO
  | FOUR_FOUR
deriving DecidableEq, Fintype

/-- Modelled from the spec: `move_tracker::MoveTracker` (its header is not in
src/; only its callers in `Metropolis.hpp` are). A fixed-cardinality counter
bank over the five move types (spec section 4.1). -/
structure MoveTracker where
  two_three : ℕ
  three_two : ℕ
  two_six : ℕ
  six_two : ℕ
  four_four : ℕ
deriving DecidableEq

/-- The count stored for a given move type (`tracker[move]` in the C++). -/
def MoveTracker.count (t : MoveTracker) : move_type → ℕ
  | .TWO_THREE => t.two_three
  | .THREE_TWO => t.three_two
  | .TWO_SIX => t.two_six
  | .SIX_TWO => t.six_two
  | .FOUR_FOUR => t.four_four

/-- Modelled from the spec: `increment(move_type)` bumps the count for that
type (`tracker[as_integer(move)]++` at the call sites in `Metropolis.hpp`). -/
def MoveTracker.increment (t : MoveTracker) : move_type → MoveTracker
  | .TWO_THREE => { t with two_three := t.two_three + 1 }
  | .THREE_TWO => { t with three_two := t.three_two + 1 }
  | .TWO_SIX => { t with two_six := t.two_six + 1 }
  | .SIX_TWO => { t with six_two := t.six_two + 1 }
  | .FOUR_FOUR => { t with four_four := t.four_four + 1 }

/-- Modelled from the spec: `total()` is the sum of all the per-type counts
(spec section 4.1). -/
def MoveTracker.total (t : MoveTracker) : ℕ :=
  t.two_three + t.three_two + t.two_six + t.six_two + t.four_four

/-- Modelled from the spec: `merge`/`operator+=` is elementwise addition of
two trackers, used at the merge points `m_attempted_moves += ...` in
`Metropolis.hpp`. -/
def MoveTracker.add (a b : MoveTracker) : MoveTracker :=
  ⟨a.two_three + b.two_three, a.three_two + b.three_two, a.two_six + b.two_six,
   a.six_two + b.six_two, a.four_four + b.four_four⟩

/-- The all-zero tracker (value-initialized counters). -/
def MoveTracker.zero : MoveTracker := ⟨0, 0, 0, 0, 0⟩

/-- The geometry summary fields of `Geometry<3>` read by `CalculateA2`
(`m_geometry.N1_TL`, `m_geometry.N3_31_13`, `m_geometry.N3_22`); the counts
are signed machine integers (`Int_precision`), embedded as `Int`. -/
structure Geometry where
  N1_TL : ℤ
  N3_31_13 : ℤ
  N3_22 : ℤ
deriving DecidableEq

/-- MPFR division `mpfr_div(a1, r1, r2)` on non-negative integer inputs.
A zero divisor produces a non-finite result (0/0 is NaN, x/0 is an
infinity); non-finite values are modelled as `none`. Finite-precision
rounding (256-bit significand, round-down, then conversion to double) is
idealized to the exact rational. -/
def mpfr_div (a b : ℕ) : Option ℚ :=
  if b = 0 then none else some ((a : ℚ) / (b : ℚ))

/-- `MoveStrategy<METROPOLIS>::CalculateA1` from `Metropolis.hpp` lines
153-184: the attempted count for the move divided by the attempted total,
via MPFR division. There is no guard for a zero total in the source; in
that case the MPFR quotient 0/0 is NaN (`none` here). -/
def CalculateA1 (attempted : MoveTracker) (move : move_type) : Option ℚ :=
  mpfr_div (attempted.count move) attempted.total

/-- The hypothetical post-move counts `(N1_TL, N3_31_13, N3_22)` handed to
`S3_bulk_action` by the `switch` in `CalculateA2` (`Metropolis.hpp` lines
200-239), one case per move type; `none` for FOUR_FOUR, whose case returns
1 before any hypothetical action is formed. The SIX_TWO arguments are
transcribed exactly as the source writes them: `N1_TL - 2`, `N3_31_13`,
`N3_22 - 4`. -/
def hypotheticalCounts (g : Geometry) : move_type → Option (ℤ × ℤ × ℤ)
  | .TWO_THREE => some (g.N1_TL + 1, g.N3_31_13, g.N3_22 + 1)
  | .THREE_TWO => some (g.N1_TL - 1, g.N3_31_13, g.N3_22 - 1)
  | .TWO_SIX => some (g.N1_TL + 2, g.N3_31_13 + 4, g.N3_22)
  | .SIX_TWO => some (g.N1_TL - 2, g.N3_31_13, g.N3_22 - 4)
  | .FOUR_FOUR => none

/-- `MoveStrategy<METROPOLIS>::CalculateA2<3>` from `Metropolis.hpp` lines
191-274. `S` is the external action evaluator `S3_bulk_action` (with the
fixed couplings Alpha, K, Lambda folded in) and `expFn` is the MPFR
exponential `mpfr_exp`. The FOUR_FOUR case returns 1 directly; otherwise
`exponent = currentS3Action - newS3Action` and the Metropolis rule returns
1 when `exponent >= 0`, else `expFn exponent`. (The source also evaluates
`currentS3Action` before the `switch`; since the FOUR_FOUR case ignores it,
hoisting it into the non-FOUR_FOUR branch is result-identical.) -/
def CalculateA2 (S : ℤ → ℤ → ℤ → ℚ) (expFn : ℚ → ℚ) (g : Geometry)
    (move : move_type) : ℚ :=
  match hypotheticalCounts g move with
  | none => 1
  | some (n1, n31, n22) =>
    let currentS3Action := S g.N1_TL g.N3_31_13 g.N3_22
    let newS3Action := S n1 n31 n22
    let exponent := currentS3Action - newS3Action
    if 0 ≤ exponent then 1 else expFn exponent

/-- C2: counterexample input. At the geometry `N1_TL = 10, N3_31_13 = 8,
N3_22 = 5`, the SIX_TWO case of `CalculateA2` evaluates the hypothetical
action at `(8, 8, 1)`: it subtracts 4 from the (2,2) count and leaves the
(3,1)/(1,3) count unchanged. The exact inverse of the TWO_SIX adjustment
(which is `(+2, +4, 0)`, third conjunct) would be `(8, 4, 5)`, as the
source's own comment ("removes 2 timelike edges and 2 (1,3) and 2 (3,1)
simplices") also demands; the code contradicts it. -/
theorem sixTwo_hypothetical_counts_divergence :
    hypotheticalCounts ⟨10, 8, 5⟩ move_type.SIX_TWO = some (8, 8, 1)
    ∧ hypotheticalCounts ⟨10, 8, 5⟩ move_type.SIX_TWO ≠ some (8, 4, 5)
    ∧ hypotheticalCounts ⟨10, 8, 5⟩ move_type.TWO_SIX = some (12, 12, 5) := by
  refine ⟨rfl, ?_, rfl⟩
  decide

/-- C5: counterexample. With the all-zero attempted tracker the attempted
total is 0 and `CalculateA1` performs an unguarded MPFR division 0/0,
yielding NaN (`none`) — not the numeric value 0 the claim asserts. -/
theorem calculateA1_zero_total_is_nan_not_zero :
    CalculateA1 MoveTracker.zero move_type.TWO_THREE = none
    ∧ CalculateA1 MoveTracker.zero move_type.TWO_THREE ≠ some 0 := by
  refine ⟨rfl, ?_⟩
  decide

/-- C5 (amended): `CalculateA1` returns the attempted count for the move
divided by the attempted total whenever the total is nonzero; when the
total is zero the division is not guarded and the MPFR quotient 0/0 is
NaN, modelled as `none` (no numeric result, in particular not 0). -/
theorem calculateA1_ratio_and_unguarded_zero (t : MoveTracker) (move : move_type) :
    (t.total = 0 → CalculateA1 t move = none)
    ∧ (t.total ≠ 0 →
        CalculateA1 t move = some ((t.count move : ℚ) / (t.total : ℚ))) := by
  constructor
  · intro h
    simp [CalculateA1, mpfr_div, h]
  · intro h
    simp [CalculateA1, mpfr_div, h]

/-- C5 witness: the amended theorem applied at a concrete tracker with one
attempted TWO_THREE move: the total is 1, so A1 is 1/1. -/
theorem calculateA1_ratio_witness :
    CalculateA1 ⟨1, 0, 0, 0, 0⟩ move_type.TWO_THREE
      = some (((1 : ℕ) : ℚ) / ((1 : ℕ) : ℚ)) :=
  (calculateA1_ratio_and_unguarded_zero ⟨1, 0, 0, 0, 0⟩ move_type.TWO_THREE).2
    (by decide)

/-- C6: for every action evaluator `S`, every exponential `expFn` and every
geometry, `CalculateA2` on FOUR_FOUR is exactly 1. The statement quantifies
over the action evaluator, so the value 1 is established without using any
property of (or any call to) the action evaluator. -/
theorem calculateA2_four_four_is_one (S : ℤ → ℤ → ℤ → ℚ) (expFn : ℚ → ℚ)
    (g : Geometry) : CalculateA2 S expFn g move_type.FOUR_FOUR = 1 := rfl

/-- C7: for every move with a hypothetical-count adjustment (all moves but
FOUR_FOUR), if the action difference `DeltaS = S(before) - S(after)` is
non-negative then `CalculateA2` returns exactly 1 — for every exponential
function `expFn`, so the value is never obtained by exponentiation — and
only when `DeltaS < 0` is the result `expFn DeltaS`. -/
theorem calculateA2_metropolis_rule (S : ℤ → ℤ → ℤ → ℚ) (expFn : ℚ → ℚ)
    (g : Geometry) (move : move_type) (n1 n31 n22 : ℤ)
    (h : hypotheticalCounts g move = some (n1, n31, n22)) :
    (0 ≤ S g.N1_TL g.N3_31_13 g.N3_22 - S n1 n31 n22 →
      CalculateA2 S expFn g move = 1)
    ∧ (S g.N1_TL g.N3_31_13 g.N3_22 - S n1 n31 n22 < 0 →
      CalculateA2 S expFn g move =
        expFn (S g.N1_TL g.N3_31_13 g.N3_22 - S n1 n31 n22)) := by
  constructor
  · intro hge
    simp [CalculateA2, h, hge]
  · intro hlt
    simp [CalculateA2, h, not_le.mpr hlt]

/-- C7 witness: with the action evaluator returning the timelike edge count
and the zero geometry, the TWO_THREE adjustment gives `DeltaS = 0 - 1 < 0`,
so A2 is the exponential of -1 (here `expFn = fun _ => 0`, so A2 = 0); the
hypothesis on `hypotheticalCounts` is discharged by computation. -/
theorem calculateA2_metropolis_rule_witness :
    CalculateA2 (fun a _ _ => (a : ℚ)) (fun _ => 0) ⟨0, 0, 0⟩
      move_type.TWO_THREE = (fun _ : ℚ => (0 : ℚ))
        ((fun a _ _ => (a : ℚ)) (0 : ℤ) (0 : ℤ) (0 : ℤ)
          - (fun a _ _ => (a : ℚ)) (1 : ℤ) (0 : ℤ) (1 : ℤ)) :=
  (calculateA2_metropolis_rule (fun a _ _ => (a : ℚ)) (fun _ => 0) ⟨0, 0, 0⟩
    move_type.TWO_THREE 1 0 1 rfl).2 (by norm_num)

/-- `MoveCommand` from `Move_command.hpp`: it owns one manifold
(`m_manifold`) and a `std::deque` of pending move functions (`m_moves`),
head = deque front. A move is a fallible pure function of the manifold
(`tl::expected<ManifoldType, std::string_view>`), embedded as
`M → Except String M`. -/
structure MoveCommand (M : Type) where
  m_manifold : M
  m_moves : List (M → Except String M)

variable {M : Type}

/-- `MoveCommand::enqueue` (`Move_command.hpp` line 90):
`m_moves.push_front(t_move)`. -/
def MoveCommand.enqueue (c : MoveCommand M) (f : M → Except String M) :
    MoveCommand M :=
  { c with m_moves := f :: c.m_moves }

/-- Enqueue a list of moves in order (first element enqueued first). -/
def MoveCommand.enqueueAll (c : MoveCommand M) (fs : List (M → Except String M)) :
    MoveCommand M :=
  fs.foldl MoveCommand.enqueue c

/-- The loop body of `MoveCommand::execute` (`Move_command.hpp` lines
95-127) applied to the moves in the order the loop visits them (the deque
back first). Each step invokes the move on the current owned manifold
via `apply_move`; on success the result is updated (`result->update()`,
the external consistency update, a parameter here) and swapped into
`m_manifold`; on failure the error is printed (`fmt::print(result.error())`,
collected in the returned list) and the manifold is left as it was. -/
def execList (update : M → M) : M → List (M → Except String M) → M × List String
  | m, [] => (m, [])
  | m, f :: rest =>
    match f m with
    | .ok m2 => execList update (update m2) rest
    | .error e =>
      let r := execList update m rest
      (r.1, e :: r.2)

/-- `MoveCommand::execute`: the while-loop takes `m_moves.back()`, applies
it, then `pop_back()`s, until the deque is empty; so the moves are visited
in reverse of the stored (front-first) list. Returns the command after the
drain together with the printed error messages. -/
def MoveCommand.execute (update : M → M) (c : MoveCommand M) :
    MoveCommand M × List String :=
  let r := execList update c.m_manifold c.m_moves.reverse
  ({ m_manifold := r.1, m_moves := [] }, r.2)

/-- C3: counterexample. Enqueue `fun n => n + 1` first and `fun n => n * 2`
second on the manifold 0 (embedded as a bare natural number). The claim's
last-in-first-out order would run the doubling move first and produce
`(0 * 2) + 1 = 1`; the code drains the deque from the back, runs the
first-enqueued move first, and produces `(0 + 1) * 2 = 2`. -/
theorem execute_order_refutes_lifo :
    ((((⟨0, []⟩ : MoveCommand ℕ).enqueue
        (fun n => .ok (n + 1))).enqueue
        (fun n => .ok (n * 2))).execute id).1.m_manifold = 2
    ∧ ¬ ((((⟨0, []⟩ : MoveCommand ℕ).enqueue
        (fun n => .ok (n + 1))).enqueue
        (fun n => .ok (n * 2))).execute id).1.m_manifold = 1 := by
  constructor
  · rfl
  · intro h
    simp [MoveCommand.execute, MoveCommand.enqueue, execList] at h

/-- Auxiliary: enqueueing a list stores it reversed in front of the
existing deque contents (`push_front` conses each move). -/
theorem MoveCommand.enqueueAll_moves (c : MoveCommand M)
    (fs : List (M → Except String M)) :
    (c.enqueueAll fs).m_moves = fs.reverse ++ c.m_moves := by
  induction fs generalizing c with
  | nil => simp [enqueueAll]
  | cons f fs ih =>
    simp [enqueueAll, List.foldl_cons] at ih ⊢
    rw [ih (c.enqueue f)]
    simp [enqueue]

/-- Auxiliary: enqueueing never changes the owned manifold. -/
theorem MoveCommand.enqueueAll_manifold (c : MoveCommand M)
    (fs : List (M → Except String M)) :
    (c.enqueueAll fs).m_manifold = c.m_manifold := by
  induction fs generalizing c with
  | nil => rfl
  | cons f fs ih => exact (ih (c.enqueue f)).trans rfl

/-- C3 (amended): `execute` drains the queue in first-in-first-out order —
the earliest-enqueued move executes first. For a command built by
enqueueing the moves `fs` in order onto a fresh command, the resulting
manifold is the left-to-right drain of `fs` from the original manifold
(so enqueueing a 2→3 move then a 3→2 move runs the 2→3 move first). -/
theorem execute_is_fifo (update : M → M) (m : M)
    (fs : List (M → Except String M)) :
    (((⟨m, []⟩ : MoveCommand M).enqueueAll fs).execute update).1.m_manifold
      = (execList update m fs).1 := by
  simp [MoveCommand.execute, MoveCommand.enqueueAll_moves,
    MoveCommand.enqueueAll_manifold]

/-- Auxiliary: draining a concatenation drains the first part, then drains
the second part from the resulting manifold; the printed errors
concatenate in the same order. -/
theorem execList_append (update : M → M) (m : M)
    (xs ys : List (M → Except String M)) :
    execList update m (xs ++ ys) =
      ((execList update (execList update m xs).1 ys).1,
       (execList update m xs).2
         ++ (execList update (execList update m xs).1 ys).2) := by
  induction xs generalizing m with
  | nil => simp [execList]
  | cons f xs ih =>
    cases hf : f m with
    | ok m2 => simp [execList, hf, ih]
    | error e => simp [execList, hf, ih]

/-- C8: if the move `f` fails (returns an error) on the manifold reached
after the earlier moves `pre`, then the drain of `pre ++ f :: post` yields
the same manifold as the drain of `pre ++ post` — the failing move leaves
the owned manifold unchanged, the earlier successful moves are not rolled
back, and execution continues with the remaining moves — the failure
description `e` is surfaced among the printed errors rather than thrown,
and after any `execute` the queue is empty. -/
theorem execute_failure_is_skipped_and_surfaced (update : M → M) (m : M)
    (pre post : List (M → Except String M)) (f : M → Except String M)
    (e : String) (c : MoveCommand M)
    (h : f (execList update m pre).1 = .error e) :
    (execList update m (pre ++ f :: post)).1
        = (execList update m (pre ++ post)).1
    ∧ e ∈ (execList update m (pre ++ f :: post)).2
    ∧ (c.execute update).1.m_moves = [] := by
  refine ⟨?_, ?_, rfl⟩
  · rw [execList_append, execList_append]
    simp [execList, h]
  · rw [execList_append]
    simp [execList, h]

/-- C8 witness: the theorem at the concrete command over natural numbers
with `pre = [+1]`, a failing middle move and `post = [*2]`: the drain
produces `(0 + 1) * 2 = 2` either way, the error "nope" is surfaced, and
the queue is empty after execution. -/
theorem execute_failure_witness :
    (execList id 0 ([fun n => .ok (n + 1)]
        ++ (fun _ : ℕ => (.error "nope" : Except String ℕ)) ::
          [fun n => .ok (n * 2)])).1
      = (execList id 0 ([fun n => .ok (n + 1)] ++ [fun n => .ok (n * 2)])).1
    ∧ "nope" ∈ (execList id 0 ([fun n => .ok (n + 1)]
        ++ (fun _ : ℕ => (.error "nope" : Except String ℕ)) ::
          [fun n => .ok (n * 2)])).2
    ∧ (((⟨0, []⟩ : MoveCommand ℕ).execute id)).1.m_moves = [] :=
  execute_failure_is_skipped_and_surfaced id 0 [fun n => .ok (n + 1)]
    [fun n => .ok (n * 2)] (fun _ => .error "nope") "nope" ⟨0, []⟩ rfl

/-- The caller's stack frame: the caller's manifold variable and the
`MoveCommand` are separate store slots. `MoveCommand`'s constructor
(`Move_command.hpp` lines 47-49) takes its `ManifoldType` parameter by
value, so constructing the command copies the caller's manifold into the
command's own `m_manifold`. -/
structure World (M : Type) where
  caller : M
  command : MoveCommand M

/-- `MoveCommand command(manifold)`: the command receives a copy of the
caller's manifold; the caller's slot is untouched. -/
def World.construct (m : M) : World M :=
  { caller := m, command := ⟨m, []⟩ }

/-- `command.enqueue(move)` acts on the command slot only. -/
def World.enqueue (w : World M) (f : M → Except String M) : World M :=
  { w with command := w.command.enqueue f }

/-- Enqueue a list of moves in order on the command slot. -/
def World.enqueueAll (w : World M) (fs : List (M → Except String M)) : World M :=
  fs.foldl World.enqueue w

/-- `command.execute()` acts on the command slot only. -/
def World.execute (update : M → M) (w : World M) : World M :=
  { w with command := (w.command.execute update).1 }

/-- Auxiliary: enqueueing never touches the caller's manifold slot. -/
theorem World.enqueueAll_caller (w : World M)
    (fs : List (M → Except String M)) :
    (w.enqueueAll fs).caller = w.caller := by
  induction fs generalizing w with
  | nil => rfl
  | cons f fs ih => exact (ih (w.enqueue f)).trans rfl

/-- C9: constructing a `MoveCommand` from a manifold `m`, then enqueueing
any sequence of moves and executing, leaves the caller's manifold exactly
`m`: only the command's internally owned copy changes. The second conjunct
exhibits the distinctness on a concrete run: after a successful `+1` move
the command's owned manifold is 1 while the caller's is still 0, so the
owned manifold is a distinct object from the caller's. -/
theorem moveCommand_never_mutates_caller (update : M → M) (m : M)
    (fs : List (M → Except String M)) :
    (((World.construct m).enqueueAll fs).execute update).caller = m
    ∧ ((((World.construct (0 : ℕ)).enqueue
          (fun n => .ok (n + 1))).execute id).command.m_manifold
        ≠ (((World.construct (0 : ℕ)).enqueue
          (fun n => .ok (n + 1))).execute id).caller) := by
  constructor
  · exact World.enqueueAll_caller (World.construct m) fs
  · intro h
    simp [World.construct, World.enqueue, World.execute, MoveCommand.execute,
      MoveCommand.enqueue, execList] at h

/-- Modelled from the spec: the MoveCommand variant that `Metropolis.hpp`
drives (`command.enqueue(move_type)`, `command.get_attempted()` and
friends); its header is not in src/ — the `Move_command.hpp` present is an
older revision without trackers. Per spec section 4.3 it owns one manifold,
a deque of pending move types (same `push_front`/drain-from-back deque
discipline as the `Move_command.hpp` in src/), and the attempted,
succeeded and failed trackers, zero at construction. -/
structure MoveCommandTracked (M : Type) where
  manifold : M
  moves : List move_type
  attempted : MoveTracker
  succeeded : MoveTracker
  failed : MoveTracker

/-- Modelled from the spec: `construct(manifold)` copies the manifold in
and starts with an empty queue and zeroed trackers. -/
def MoveCommandTracked.construct (m : M) : MoveCommandTracked M :=
  ⟨m, [], .zero, .zero, .zero⟩

/-- Modelled from the spec: `enqueue(move)` pushes the move type onto the
deque front. -/
def MoveCommandTracked.enqueue (c : MoveCommandTracked M) (mv : move_type) :
    MoveCommandTracked M :=
  { c with moves := mv :: c.moves }

/-- Modelled from the spec: the queue drain of section 4.3, visiting the
moves in execution order. `apply` is the external dispatch from move type
to move function: `.error` models a thrown runtime error (propagates),
`.ok none` a geometric precondition failure (attempted and failed
increment, manifold unchanged, drain continues), `.ok (some m2)` a success
(attempted and succeeded increment, the externally updated result replaces
the owned manifold). -/
def drainTracked (apply : move_type → M → Except String (Option M))
    (update : M → M) :
    M → MoveTracker → MoveTracker → MoveTracker → List move_type →
    Except String (M × MoveTracker × MoveTracker × MoveTracker)
  | m, att, suc, fl, [] => .ok (m, att, suc, fl)
  | m, att, suc, fl, mv :: rest =>
    match apply mv m with
    | .error e => .error e
    | .ok (some m2) =>
      drainTracked apply update (update m2) (att.increment mv)
        (suc.increment mv) fl rest
    | .ok none =>
      drainTracked apply update m (att.increment mv) suc (fl.increment mv) rest

/-- Modelled from the spec: `execute()` on the tracked command — drain the
whole queue (from the deque back, so in reverse of the stored front-first
list), leaving the queue empty; a thrown error propagates. -/
def MoveCommandTracked.execute (apply : move_type → M → Except String (Option M))
    (update : M → M) (c : MoveCommandTracked M) :
    Except String (MoveCommandTracked M) :=
  match drainTracked apply update c.manifold c.attempted c.succeeded c.failed
      c.moves.reverse with
  | .error e => .error e
  | .ok (m, att, suc, fl) => .ok ⟨m, [], att, suc, fl⟩

/-- The tracker invariant of C1: for every move type, attempted equals
succeeded plus failed. -/
def trackerInv (att suc fl : MoveTracker) : Prop :=
  ∀ mv : move_type, att.count mv = suc.count mv + fl.count mv

/-- Auxiliary: incrementing changes exactly the incremented slot. -/
theorem MoveTracker.count_increment (t : MoveTracker) (mv mt : move_type) :
    (t.increment mv).count mt
      = if mt = mv then t.count mt + 1 else t.count mt := by
  cases mv <;> cases mt <;> simp [increment, count]

/-- Auxiliary: incrementing adds one to the total. -/
theorem MoveTracker.total_increment (t : MoveTracker) (mv : move_type) :
    (t.increment mv).total = t.total + 1 := by
  cases mv <;> simp [increment, total] <;> omega

/-- Auxiliary: elementwise addition adds the per-type counts. -/
theorem MoveTracker.count_add (a b : MoveTracker) (mv : move_type) :
    (a.add b).count mv = a.count mv + b.count mv := by
  cases mv <;> rfl

/-- Auxiliary: a successful move increments attempted and succeeded
together, preserving the tracker invariant. -/
theorem trackerInv_increment_success (att suc fl : MoveTracker)
    (mv : move_type) (h : trackerInv att suc fl) :
    trackerInv (att.increment mv) (suc.increment mv) fl := by
  intro mt
  have hmt := h mt
  rw [MoveTracker.count_increment, MoveTracker.count_increment]
  by_cases hc : mt = mv
  · subst hc
    simp only [if_true, eq_self_iff_true]
    omega
  · simp only [if_neg hc]
    omega

/-- Auxiliary: a failed move increments attempted and failed together,
preserving the tracker invariant. -/
theorem trackerInv_increment_failure (att suc fl : MoveTracker)
    (mv : move_type) (h : trackerInv att suc fl) :
    trackerInv (att.increment mv) suc (fl.increment mv) := by
  intro mt
  have hmt := h mt
  rw [MoveTracker.count_increment, MoveTracker.count_increment]
  by_cases hc : mt = mv
  · subst hc
    simp only [if_true, eq_self_iff_true]
    omega
  · simp only [if_neg hc]
    omega

/-- Auxiliary: the queue drain preserves the tracker invariant whenever it
finishes without a thrown error. -/
theorem drainTracked_inv (apply : move_type → M → Except String (Option M))
    (update : M → M) (q : List move_type) :
    ∀ (m : M) (att suc fl : MoveTracker)
      (r : M × MoveTracker × MoveTracker × MoveTracker),
      trackerInv att suc fl →
      drainTracked apply update m att suc fl q = .ok r →
      trackerInv r.2.1 r.2.2.1 r.2.2.2 := by
  induction q with
  | nil =>
    intro m att suc fl r h hr
    cases hr
    exact h
  | cons mv rest ih =>
    intro m att suc fl r h hr
    rw [drainTracked] at hr
    cases happ : apply mv m with
    | error e => rw [happ] at hr; cases hr
    | ok o =>
      rw [happ] at hr
      cases o with
      | some m2 =>
        exact ih (update m2) (att.increment mv) (suc.increment mv) fl r
          (trackerInv_increment_success att suc fl mv h) hr
      | none =>
        exact ih m (att.increment mv) suc (fl.increment mv) r
          (trackerInv_increment_failure att suc fl mv h) hr

/-- C1: the attempted/succeeded/failed bookkeeping is consistent. A freshly
constructed command satisfies attempted = succeeded + failed for every move
type (all zero); every queue drain that completes preserves the invariant
(each move increments attempted together with exactly one of succeeded or
failed); and the per-pass merge `m_attempted_moves += command.get_attempted()`
(and likewise for succeeded and failed, `Metropolis.hpp` lines 414-417)
preserves it at the engine level. Hence after each queue drain, attempted
equals succeeded plus failed for every move type. -/
theorem attempted_eq_succeeded_plus_failed (M : Type)
    (apply : move_type → M → Except String (Option M)) (update : M → M) :
    (∀ m : M, trackerInv (MoveCommandTracked.construct m).attempted
      (MoveCommandTracked.construct m).succeeded
      (MoveCommandTracked.construct m).failed)
    ∧ (∀ c c' : MoveCommandTracked M,
        trackerInv c.attempted c.succeeded c.failed →
        MoveCommandTracked.execute apply update c = .ok c' →
        trackerInv c'.attempted c'.succeeded c'.failed)
    ∧ (∀ ea es ef ca cs cf : MoveTracker,
        trackerInv ea es ef → trackerInv ca cs cf →
        trackerInv (ea.add ca) (es.add cs) (ef.add cf)) := by
  refine ⟨fun m mv => by cases mv <;> rfl, ?_, ?_⟩
  · intro c c' h hc
    rw [MoveCommandTracked.execute] at hc
    cases hdr : drainTracked apply update c.manifold c.attempted c.succeeded
        c.failed c.moves.reverse with
    | error e => rw [hdr] at hc; cases hc
    | ok r =>
      rw [hdr] at hc
      obtain ⟨m2, att, suc, fl⟩ := r
      cases hc
      exact drainTracked_inv apply update c.moves.reverse c.manifold
        c.attempted c.succeeded c.failed (m2, att, suc, fl) h hdr
  · intro ea es ef ca cs cf he hc mv
    rw [MoveTracker.count_add, MoveTracker.count_add, MoveTracker.count_add,
      he mv, hc mv]
    omega

/-- C1 witness: the invariant-preservation conjunct applied to a concrete
command over natural numbers with one queued TWO_THREE move and an
always-successful move dispatch: the drained command's trackers are
attempted = succeeded = one TWO_THREE, failed = zero, and the invariant
holds there. -/
theorem attempted_eq_succeeded_plus_failed_witness :
    trackerInv (⟨1, 0, 0, 0, 0⟩ : MoveTracker) ⟨1, 0, 0, 0, 0⟩
      ⟨0, 0, 0, 0, 0⟩ :=
  (attempted_eq_succeeded_plus_failed ℕ (fun _ m => .ok (some m)) id).2.1
    ((MoveCommandTracked.construct 0).enqueue .TWO_THREE)
    ⟨0, [], ⟨1, 0, 0, 0, 0⟩, ⟨1, 0, 0, 0, 0⟩, ⟨0, 0, 0, 0, 0⟩⟩
    (fun mv => by cases mv <;> rfl) rfl

/-- The tracker state of `MoveStrategy<METROPOLIS>` (`Metropolis.hpp` lines
63-85): the engine's geometry member `m_geometry` and its six `MoveTracker`
members. -/
structure MetropolisState where
  geometry : Geometry
  trial : MoveTracker
  accepted : MoveTracker
  rejected : MoveTracker
  attempted : MoveTracker
  succeeded : MoveTracker
  failed : MoveTracker
deriving DecidableEq

/-- `MoveStrategy<METROPOLIS>::try_move` (`Metropolis.hpp` lines 283-321):
record the trial move, compute A1 and A2, and accept iff
`trial <= a1 * a2` for the random draw `trial_value`; a NaN A1 (attempted
total zero, modelled as `none`) makes the comparison false, as in C++.
On accept the accepted tracker increments, otherwise the rejected tracker
does; the function returns whether the move was accepted. -/
def try_move (S : ℤ → ℤ → ℤ → ℚ) (expFn : ℚ → ℚ) (s : MetropolisState)
    (move : move_type) (trial_value : ℚ) : Bool × MetropolisState :=
  let s1 := { s with trial := s.trial.increment move }
  let a1 := CalculateA1 s1.attempted move
  let a2 := CalculateA2 S expFn s1.geometry move
  let accept : Bool := match a1 with
    | none => false
    | some q => decide (trial_value ≤ q * a2)
  if accept then (true, { s1 with accepted := s1.accepted.increment move })
  else (false, { s1 with rejected := s1.rejected.increment move })

/-- The warm-up command of `initialize` (`Metropolis.hpp` lines 330-354):
one move of each of the five types enqueued in source order (TWO_THREE,
THREE_TWO, TWO_SIX, SIX_TWO, FOUR_FOUR). -/
def warmupCommand (m : M) : MoveCommandTracked M :=
  (((((MoveCommandTracked.construct m).enqueue .TWO_THREE).enqueue
    .THREE_TWO).enqueue .TWO_SIX).enqueue .SIX_TWO).enqueue .FOUR_FOUR

/-- The engine tracker updates interleaved with the warm-up enqueues
(`Metropolis.hpp` lines 333-351): the trial and accepted counts of each of
the five move types are incremented by one. -/
def warmupTrackers (s : MetropolisState) : MetropolisState :=
  { s with
    trial := ((((s.trial.increment .TWO_THREE).increment
      .THREE_TWO).increment .TWO_SIX).increment .SIX_TWO).increment .FOUR_FOUR,
    accepted := ((((s.accepted.increment .TWO_THREE).increment
      .THREE_TWO).increment .TWO_SIX).increment .SIX_TWO).increment
      .FOUR_FOUR }

/-- `MoveStrategy<METROPOLIS>::initialize` (`Metropolis.hpp` lines
326-373): build the warm-up command, increment the trial and accepted
trackers for each enqueued move, execute the queue, and merge the
command's attempted/succeeded/failed trackers into the engine. The whole
body is a function-try-block: a thrown runtime error is caught and the
function returns an empty optional (`std::nullopt`), leaving the engine
tracker increments made before the throw in place. -/
def initMetropolis (apply : move_type → M → Except String (Option M))
    (update : M → M) (s : MetropolisState) (m : M) :
    MetropolisState × Option (MoveCommandTracked M) :=
  let s1 := warmupTrackers s
  match MoveCommandTracked.execute apply update (warmupCommand m) with
  | .ok c2 =>
    ({ s1 with attempted := s1.attempted.add c2.attempted,
               succeeded := s1.succeeded.add c2.succeeded,
               failed := s1.failed.add c2.failed }, some c2)
  | .error _ => (s1, none)

/-- The per-pass attempt loop (`Metropolis.hpp` lines 402-409): make the
given number of attempts, each drawing a move type and an acceptance draw
from the streams at the running cursor, calling `try_move`, and enqueueing
the move on acceptance. Returns the state, the command and the advanced
cursor. -/
def attemptLoop (S : ℤ → ℤ → ℤ → ℚ) (expFn : ℚ → ℚ)
    (moveStream : ℕ → move_type) (trialStream : ℕ → ℚ) :
    ℕ → ℕ → MetropolisState → MoveCommandTracked M →
    MetropolisState × MoveCommandTracked M × ℕ
  | 0, k, s, c => (s, c, k)
  | n + 1, k, s, c =>
    let move := moveStream k
    let r := try_move S expFn s move (trialStream k)
    let c2 := if r.1 then c.enqueue move else c
    attemptLoop S expFn moveStream trialStream n (k + 1) r.2 c2

/-- The pass loop of `operator()` (`Metropolis.hpp` lines 397-430): for
each pass, read the 3-cell count of the command's manifold (`N3`, fixed
for the pass), run that many attempts, execute the accumulated queue (a
thrown error propagates out of the run), and merge the command's
attempted/succeeded/failed trackers into the engine's running totals. The
checkpoint branch only prints and writes a file and is omitted. -/
def passLoop (apply : move_type → M → Except String (Option M))
    (update : M → M) (S : ℤ → ℤ → ℤ → ℚ) (expFn : ℚ → ℚ) (N3 : M → ℕ)
    (moveStream : ℕ → move_type) (trialStream : ℕ → ℚ) :
    ℕ → ℕ → MetropolisState → MoveCommandTracked M →
    Except String (MetropolisState × MoveCommandTracked M)
  | 0, _, s, c => .ok (s, c)
  | p + 1, k, s, c =>
    let r := attemptLoop S expFn moveStream trialStream (N3 c.manifold) k s c
    match MoveCommandTracked.execute apply update r.2.1 with
    | .error e => .error e
    | .ok c2 =>
      let s2 := { r.1 with attempted := r.1.attempted.add c2.attempted,
                           succeeded := r.1.succeeded.add c2.succeeded,
                           failed := r.1.failed.add c2.failed }
      passLoop apply update S expFn N3 moveStream trialStream p r.2.2 s2 c2

/-- The tail of `operator()`: return the final manifold
(`command.get_results()`) from the pass-loop outcome. -/
def finishRun :
    Except String (MetropolisState × MoveCommandTracked M) →
    Except String (MetropolisState × M)
  | .error e => .error e
  | .ok (s2, c2) => .ok (s2, c2.manifold)

/-- `MoveStrategy<METROPOLIS>::operator()` (`Metropolis.hpp` lines
382-436): `auto command = initialize(t_manifold).value_or(MoveCommand(t_manifold))`
followed by the pass loop over `m_passes` passes starting at random-stream
cursor 0, returning the final state and manifold. -/
def runMetropolis (apply : move_type → M → Except String (Option M))
    (update : M → M) (S : ℤ → ℤ → ℤ → ℚ) (expFn : ℚ → ℚ) (N3 : M → ℕ)
    (moveStream : ℕ → move_type) (trialStream : ℕ → ℚ) (passes : ℕ)
    (s : MetropolisState) (m : M) : Except String (MetropolisState × M) :=
  let r := initMetropolis apply update s m
  let command := r.2.getD (MoveCommandTracked.construct m)
  finishRun (passLoop apply update S expFn N3 moveStream trialStream passes 0
    r.1 command)

/-- A move dispatch that always throws a runtime error, for exercising the
initialization-failure path. -/
def throwingApply : move_type → ℕ → Except String (Option ℕ) :=
  fun _ _ => .error "runtime error"

/-- The engine state with zeroed trackers and the zero geometry. -/
def zeroState : MetropolisState :=
  ⟨⟨0, 0, 0⟩, .zero, .zero, .zero, .zero, .zero, .zero⟩

/-- C4: counterexample. With a move dispatch whose first warm-up move
throws a runtime error, `initialize` does yield an empty optional — but
the run does not fail fast: `operator()` substitutes a fresh command via
`value_or` and the pass loop proceeds. Concretely, with one pass over a
manifold with one 3-cell, the run completes with `.ok` and its rejected
tracker total is 1: the pass loop performed a `try_move` after the failed
initialization, contradicting "the pass loop does not proceed". -/
theorem failed_init_does_not_stop_pass_loop :
    (initMetropolis throwingApply id zeroState (0 : ℕ)).2 = none
    ∧ (runMetropolis throwingApply id (fun _ _ _ => 0) id (fun _ => 1)
        (fun _ => move_type.TWO_THREE) (fun _ => 1) 1 zeroState 0).toOption.map
        (fun r => r.1.rejected.total) = some 1 := by
  exact ⟨rfl, rfl⟩

/-- C4 (amended): if the warm-up queue execution throws a runtime error,
`initialize` returns an empty optional to its caller; the caller
(`operator()`) then substitutes a freshly constructed command from the
original manifold via `value_or`, and the pass loop proceeds on that
command (with the engine trackers as the warm-up left them) instead of
failing fast. -/
theorem failed_init_yields_none_and_run_proceeds (M : Type)
    (apply : move_type → M → Except String (Option M)) (update : M → M)
    (S : ℤ → ℤ → ℤ → ℚ) (expFn : ℚ → ℚ) (N3 : M → ℕ)
    (moveStream : ℕ → move_type) (trialStream : ℕ → ℚ) (passes : ℕ)
    (s : MetropolisState) (m : M) (e : String)
    (h : MoveCommandTracked.execute apply update (warmupCommand m) = .error e) :
    (initMetropolis apply update s m).2 = none
    ∧ runMetropolis apply update S expFn N3 moveStream trialStream passes s m
        = finishRun (passLoop apply update S expFn N3 moveStream trialStream
            passes 0 (warmupTrackers s) (MoveCommandTracked.construct m)) := by
  constructor
  · simp [initMetropolis, h]
  · simp [runMetropolis, initMetropolis, h]

/-- C4 witness: the amended theorem at the concrete throwing dispatch: the
warm-up execution throws "runtime error", so initialization yields no
command and the run equals the pass loop over the fallback command. -/
theorem failed_init_yields_none_witness :
    (initMetropolis throwingApply id zeroState (0 : ℕ)).2 = none
    ∧ runMetropolis throwingApply id (fun _ _ _ => 0) id (fun _ => 1)
        (fun _ => move_type.TWO_THREE) (fun _ => 1) 2 zeroState 0
      = finishRun (passLoop throwingApply id (fun _ _ _ => 0) id (fun _ => 1)
          (fun _ => move_type.TWO_THREE) (fun _ => 1) 2 0
          (warmupTrackers zeroState) (MoveCommandTracked.construct 0)) :=
  failed_init_yields_none_and_run_proceeds ℕ throwingApply id
    (fun _ _ _ => 0) id (fun _ => 1) (fun _ => move_type.TWO_THREE)
    (fun _ => 1) 2 zeroState 0 "runtime error" rfl

/-- The trial-stage balance invariant of C10: the trial total equals the
accepted total plus the rejected total. -/
def trialBalance (s : MetropolisState) : Prop :=
  s.trial.total = s.accepted.total + s.rejected.total

/-- C10: every `try_move` call increments the trial tracker of the chosen
move by exactly one and exactly one of the accepted (iff it returns true)
or rejected (iff it returns false) trackers of that move by exactly one;
initialization's warm-up increments trial and accepted together. Hence
both operations preserve the balance trial total = accepted total +
rejected total. -/
theorem try_move_and_init_tracker_balance (M : Type)
    (apply : move_type → M → Except String (Option M)) (update : M → M)
    (S : ℤ → ℤ → ℤ → ℚ) (expFn : ℚ → ℚ) (s : MetropolisState)
    (move : move_type) (u : ℚ) (m : M) :
    ((try_move S expFn s move u).2.trial = s.trial.increment move)
    ∧ ((try_move S expFn s move u).1 = true →
        (try_move S expFn s move u).2.accepted = s.accepted.increment move
        ∧ (try_move S expFn s move u).2.rejected = s.rejected)
    ∧ ((try_move S expFn s move u).1 = false →
        (try_move S expFn s move u).2.rejected = s.rejected.increment move
        ∧ (try_move S expFn s move u).2.accepted = s.accepted)
    ∧ (trialBalance s → trialBalance (try_move S expFn s move u).2)
    ∧ (trialBalance s → trialBalance (initMetropolis apply update s m).1) := by
  have hwarm : trialBalance s → trialBalance (warmupTrackers s) := by
    intro h
    unfold trialBalance at h ⊢
    simp only [warmupTrackers, MoveTracker.total_increment]
    omega
  refine ⟨?_, ?_, ?_, ?_, ?_⟩
  · simp only [try_move]
    split <;> rfl
  · simp only [try_move]
    split
    · exact fun _ => ⟨rfl, rfl⟩
    · intro h
      cases h
  · simp only [try_move]
    split
    · intro h
      cases h
    · exact fun _ => ⟨rfl, rfl⟩
  · intro h
    unfold trialBalance at h ⊢
    simp only [try_move]
    split <;> simp only [MoveTracker.total_increment] <;> omega
  · intro h
    unfold initMetropolis
    cases hx : MoveCommandTracked.execute apply update (warmupCommand m) with
    | ok c2 => exact hwarm h
    | error e => exact hwarm h


/-- C10 witness: the theorem at the zero engine state with an
always-successful dispatch; the balance hypotheses are discharged by
computation on the zero trackers (0 = 0 + 0). -/
theorem try_move_and_init_tracker_balance_witness :
    trialBalance (try_move (fun _ _ _ => (0 : ℚ)) id zeroState
      move_type.TWO_THREE 1).2
    ∧ trialBalance (initMetropolis (fun _ m => .ok (some m)) id zeroState
      (0 : ℕ)).1 :=
  ⟨(try_move_and_init_tracker_balance ℕ (fun _ m => .ok (some m)) id
      (fun _ _ _ => 0) id zeroState move_type.TWO_THREE 1 0).2.2.2.1 rfl,
   (try_move_and_init_tracker_balance ℕ (fun _ m => .ok (some m)) id
      (fun _ _ _ => 0) id zeroState move_type.TWO_THREE 1 0).2.2.2.2 rfl⟩

end CDT
